import Mathlib

/-!
# mdchat — verification of the server core against its specification

A shallow embedding of the `mdchat` repository (server, serverconf and
common crates) in Lean 4, with theorems settling the specification's
claims about login arbitration, backlog replay, broadcast fan-out,
per-user delivery cursors, admission policy, wire framing and
configuration parsing.

Conventions of the embedding:
* Rust machine integers are `Nat` (ids are `u64`, lengths `u32`/`u8`/`u16`;
  overflow never matters at the sizes the theorems use, except where an
  explicit bound such as `u32::MAX` appears in the source, which is kept).
* `BTreeMap` is an association list looked up by key; for the message log,
  whose iteration order matters, pushes keep the list sorted by id.
* Fallible Rust functions returning `io::Result` / `Result<_, String>`
  become `Except`.
* External collaborators that are not part of this repository (the `mdswp`
  transport, `serde_json`, `regex`, `mdcrypt`'s Sha512, `std` parsers) are
  parameters of the embedding or are modelled from the specification; each
  such definition says so in its doc comment.
-/

namespace MdChat

/-- `std::io::ErrorKind` values used by the server crates. -/
inductive ErrorKind where
  | InvalidInput
  | InvalidData
  | UnexpectedEof
  | NotConnected
  | NotFound
  | AlreadyExists
  | PermissionDenied
  | Io
deriving DecidableEq, Repr

/-- `std::io::Error`: a kind together with its message. -/
structure IoError where
  kind : ErrorKind
  msg : String
deriving DecidableEq, Repr

/-- The kind of an `Except IoError` result, `none` for `ok`. -/
def errKind {α : Type} : Except IoError α → Option ErrorKind
  | Except.ok _ => none
  | Except.error e => some e.kind

/-- `mdchat_common::message::Message` (common/src/message.rs): sender
nickname, send instant and text. `DateTime<Utc>` is abstracted to a `Nat`
timestamp; nothing in the verified code inspects it. -/
structure Message where
  sender : String
  date_time : Nat
  text : String
deriving DecidableEq, Repr

namespace s2c

/-- `mdchat_common::command::s2c::Command` (common/src/command/s2c.rs),
the server-to-client commands. The enum in s2c.rs declares `Error`,
`Warning` and `MessageRecv` only; `LoginSuccess` is added here because
server/src/client.rs sends `s2c::Command::LoginSuccess` — the variant the
session code uses although the common crate's enum does not declare it
(the two files are from different revisions of the repository). -/
inductive Command where
  | Error (description : String)
  | Warning (description : String)
  | MessageRecv (message : Message)
  | LoginSuccess
deriving DecidableEq, Repr

end s2c

namespace c2s

/-- `mdchat_common::command::c2s::Command` (common/src/command/c2s.rs),
the client-to-server commands. -/
inductive Command where
  | Fetch (date_time : Nat)
  | Login (is_registering : Bool) (nickname : String) (password : String)
  | SendMessage (text : String)
deriving DecidableEq, Repr

end c2s

/-- `mdchat_common::login::LoginRequest` (common/src/login.rs). -/
structure LoginRequest where
  is_registering : Bool
  nickname : String
  password : String
deriving DecidableEq, Repr

/-! ## Association-list map (the embedding of `BTreeMap` keyed lookup) -/

/-- Key lookup in an association list: the map behind `BTreeMap::get`. -/
def mapLookup {β : Type} : List (String × β) → String → Option β
  | [], _ => none
  | (k, v) :: rest, key => if k = key then some v else mapLookup rest key

/-- `BTreeMap::insert`: replace the binding of the key if present,
otherwise add it. -/
def mapInsert {β : Type} : List (String × β) → String → β → List (String × β)
  | [], key, value => [(key, value)]
  | (k, v) :: rest, key, value =>
    if k = key then (key, value) :: rest else (k, v) :: mapInsert rest key value

theorem mapLookup_mapInsert_self {β : Type} (m : List (String × β)) (k : String) (v : β) :
    mapLookup (mapInsert m k v) k = some v := by
  induction m with
  | nil => simp [mapInsert, mapLookup]
  | cons hd tl ih =>
    by_cases h : hd.1 = k
    · simp [mapInsert, h, mapLookup]
    · simp [mapInsert, h, mapLookup, ih]

/-! ## user.rs — `UserInfo` and the nickname sanity check -/

/-- `mdchat_server::user::UserInfo` (server/src/user.rs). The password is
stored encrypted; the hash output is a byte vector modelled as `List Nat`. -/
structure UserInfo where
  nickname : String
  encrypted_password : List Nat
  last_sent_msg_id : Option Nat
deriving DecidableEq, Repr

/-- `mdchat_server::user::is_valid_nickname` (server/src/user.rs): nonempty
and every byte in `0x20 ..= 0x7E`. The Rust code checks UTF-8 bytes; the
check is stated on chars here, which agrees with the byte-level check
because a char is in `0x20 ..= 0x7E` iff its single UTF-8 byte is, and any
multi-byte char has every byte `≥ 0x80`. -/
def is_valid_nickname (candidate : String) : Bool :=
  if candidate.length == 0 then false
  else candidate.toList.all (fun c => 0x20 ≤ c.toNat && c.toNat ≤ 0x7E)

/-! ## user_list.rs — the user directory

The directory `USER_LIST : BTreeMap<String, UserInfo>` becomes a value of
type `UserList` threaded through the operations. `PASSWD_CRYPT` is
`mdcrypt::algorithms::Sha512`, an external crate: the hash is a parameter
`hash : String → List Nat` standing for `Sha512::encrypt(password.into_bytes())`. -/

abbrev UserList : Type := List (String × UserInfo)

/-- `user_list::exists` (server/src/user_list.rs): key containment. -/
def existsUser (users : UserList) (nickname : String) : Bool :=
  (mapLookup users nickname).isSome

/-- `user_list::add_user` (server/src/user_list.rs): reject an invalid
nickname (`InvalidInput`), reject a taken nickname (`AlreadyExists`),
otherwise insert the user with the hashed password and no cursor. -/
def add_user (hash : String → List Nat) (users : UserList)
    (nickname password : String) : Except IoError UserList :=
  if ¬ is_valid_nickname nickname then
    Except.error ⟨ErrorKind.InvalidInput, "tried to register with invalid nickname"⟩
  else if existsUser users nickname then
    Except.error ⟨ErrorKind.AlreadyExists, "User with nickname " ++ nickname ++ " already exists"⟩
  else
    Except.ok (mapInsert users nickname ⟨nickname, hash password, none⟩)

/-- `user_list::get_last_sent_msg_id` (server/src/user_list.rs). -/
def get_last_sent_msg_id (users : UserList) (nickname : String) :
    Except IoError (Option Nat) :=
  match mapLookup users nickname with
  | some user_info => Except.ok user_info.last_sent_msg_id
  | none => Except.error ⟨ErrorKind.NotFound, "User with nickname " ++ nickname ++ " not found"⟩

/-- `user_list::set_last_sent_msg_id` (server/src/user_list.rs): for a
present user the stored cursor is overwritten with `Some(last_sent_msg_id)`
unconditionally; for an absent user the call fails with `NotFound`. -/
def set_last_sent_msg_id (users : UserList) (nickname : String)
    (last_sent_msg_id : Nat) : Except IoError UserList :=
  match mapLookup users nickname with
  | some user_info =>
      Except.ok (mapInsert users nickname
        { user_info with last_sent_msg_id := some last_sent_msg_id })
  | none => Except.error ⟨ErrorKind.NotFound, "User with nickname " ++ nickname ++ " not found"⟩

/-- `user_list::verify_password` (server/src/user_list.rs): hash the
candidate, then compare against the stored hash of a present user
(`Ok(bool)`); an absent user is a `NotFound` error, not a boolean. -/
def verify_password (hash : String → List Nat) (users : UserList)
    (nickname : String) (candidate_passwd : String) : Except IoError Bool :=
  let encrypted_candidate := hash candidate_passwd
  match mapLookup users nickname with
  | some user_info => Except.ok (user_info.encrypted_password == encrypted_candidate)
  | none => Except.error ⟨ErrorKind.NotFound, "User with nickname " ++ nickname ++ " not found"⟩

/-! ## message_list.rs — the append-only message log

`MESSAGE_LIST : BTreeMap<u64, Message>` and `LAST_ID : u64` become one
state value. The `BTreeMap` is a list of `(id, message)` pairs kept sorted
by id, which is the order `iter()` visits it in. -/

/-- The message log state: the map and the last assigned id
(server/src/message_list.rs statics `MESSAGE_LIST`, `LAST_ID`). -/
structure MessageList where
  message_list : List (Nat × Message)
  last_id : Nat
deriving DecidableEq, Repr

/-- The empty log (both statics at their initial values). -/
def MessageList.empty : MessageList := ⟨[], 0⟩

/-- Sorted insertion by key: the embedding of `BTreeMap::insert` for the
id-keyed log (fresh ids are larger than every present key, so this appends
in the log's use, but the definition is the map's). -/
def btreeInsert (entries : List (Nat × Message)) (key : Nat) (value : Message) :
    List (Nat × Message) :=
  match entries with
  | [] => [(key, value)]
  | (k, v) :: rest =>
    if key < k then (key, value) :: (k, v) :: rest
    else if key = k then (key, value) :: rest
    else (k, v) :: btreeInsert rest key value

/-- `message_list::incr_and_get_id` (server/src/message_list.rs). -/
def incr_and_get_id (last_id : Nat) : Nat × Nat :=
  let next_id := last_id + 1
  (next_id, next_id)

/-- `message_list::push` (server/src/message_list.rs): allocate the next id
and insert the message under it. Returns the id and the new state. -/
def MessageList.push (ml : MessageList) (message : Message) : Nat × MessageList :=
  let (message_id, last_id) := incr_and_get_id ml.last_id
  (message_id, ⟨btreeInsert ml.message_list message_id message, last_id⟩)

/-- `message_list::for_messages_newer_than` (server/src/message_list.rs):
the entries the callback visits, in iteration (ascending id) order —
`iter().filter(|(&id, _)| id > message_id)`. -/
def for_messages_newer_than (ml : MessageList) (message_id : Nat) :
    List (Nat × Message) :=
  ml.message_list.filter (fun p => message_id < p.1)

/-! ## serverconf/src/nickname.rs — nickname filtering -/

/-- `mdchat_serverconf::nickname::NicknameFilteringConfig`
(serverconf/src/nickname.rs). `NonZeroU8` lengths are `Nat`s carrying
values in `1 ..= 255`; `Regex` values are their match predicates
`String → Bool` (the `regex` crate is external). -/
structure NicknameFilteringConfig where
  min_len : Nat
  max_len : Nat
  allowed : List String
  banned : List (String → Bool)

namespace NicknameFilteringConfig

/-- `NicknameFilteringConfig::new` (serverconf/src/nickname.rs):
`min_len = 1`, `max_len = u8::MAX`, empty registries. -/
def new : NicknameFilteringConfig := ⟨1, 255, [], []⟩

/-- `NicknameFilteringConfig::set_min_len` (serverconf/src/nickname.rs):
error when the new minimum exceeds the current maximum, leaving the
configuration unchanged (the error branch returns before any write);
otherwise overwrite the minimum. -/
def set_min_len (cfg : NicknameFilteringConfig) (min_len : Nat) :
    Except String NicknameFilteringConfig :=
  if min_len > cfg.max_len then
    Except.error "Tried to set minimum length greater than maximum length"
  else
    Except.ok { cfg with min_len := min_len }

/-- `NicknameFilteringConfig::set_max_len` (serverconf/src/nickname.rs):
error when the new maximum is below the current minimum, leaving the
configuration unchanged; otherwise overwrite the maximum. -/
def set_max_len (cfg : NicknameFilteringConfig) (max_len : Nat) :
    Except String NicknameFilteringConfig :=
  if max_len < cfg.min_len then
    Except.error "Tried to set maximum length lower than minimum length"
  else
    Except.ok { cfg with max_len := max_len }

/-- `NicknameFilteringConfig::allow` (serverconf/src/nickname.rs):
`HashSet::insert` of an explicitly allowed nickname. -/
def allow (cfg : NicknameFilteringConfig) (nickname : String) : NicknameFilteringConfig :=
  if cfg.allowed.contains nickname then cfg
  else { cfg with allowed := cfg.allowed ++ [nickname] }

/-- `NicknameFilteringConfig::ban` (serverconf/src/nickname.rs): push a
banned-nickname pattern. -/
def ban (cfg : NicknameFilteringConfig) (regex : String → Bool) : NicknameFilteringConfig :=
  { cfg with banned := cfg.banned ++ [regex] }

/-- `NicknameFilteringConfig::is_allowed` (serverconf/src/nickname.rs),
exactly as the source reads: the explicit allow-list wins; otherwise deny
iff some banned pattern matches; otherwise allow. The source consults
neither `min_len` nor `max_len` here. -/
def is_allowed (cfg : NicknameFilteringConfig) (nick : String) : Bool :=
  if cfg.allowed.contains nick then true
  else if cfg.banned.any (fun pattern => pattern nick) then false
  else true

/-- The specification's wording of `nickname_allowed` (spec §4.5), for
comparison with `is_allowed` above: "explicit allow-list wins; else deny if
length outside `[min, max]` OR the nickname matches any banned regular
expression; else allow." This definition follows the spec's words, not the
source. -/
def is_allowed_spec (cfg : NicknameFilteringConfig) (nick : String) : Bool :=
  if cfg.allowed.contains nick then true
  else if nick.length < cfg.min_len || nick.length > cfg.max_len
      || cfg.banned.any (fun pattern => pattern nick) then false
  else true

end NicknameFilteringConfig

/-! ## client.rs — the per-connection session

The session's `MdswpStream` is from the external `mdswp` transport crate
(not part of this repository), so its state is modelled from the spec. -/

/-- `u32::MAX`, the frame-length bound of the send path. -/
def u32Max : Nat := 4294967295

/-- Modelled from the spec: the observable state of a session's
`mdswp::MdswpStream` (the `mdswp` crate is the external reliable
transport, spec §6 "Transport": ordered byte stream with half-close
`finish_write`, abrupt `reset`, and an error flag `is_err`). `sent`
records the command frames successfully written in order; `finished` that
`finish_write` closed the own write direction; `isReset` that `reset`
abruptly terminated the transport (spec glossary: "Reset — abrupt
termination of the underlying transport"). After a half-close or a reset
a write on the stream fails with an I/O error, and `is_err` holds after a
reset (the receive loop's `while !self.is_err()` terminates, spec §4.6). -/
structure StreamState where
  sent : List s2c.Command
  finished : Bool
  isReset : Bool
deriving DecidableEq, Repr

/-- External-crate parameters of the session embedding: `jsonLen command`
is the byte length of `serde_json::to_string(&command)` (serde_json is an
external crate; encryption is the identity — `encrypt`/`decrypt` in
server/src/main.rs return their input — so the encrypted payload length
equals the serialized length), and `hash` is `mdcrypt`'s Sha512 over the
UTF-8 password bytes, exactly the `PASSWD_CRYPT.encrypt(password.into_bytes())`
of user_list.rs. -/
structure SessionCtx where
  jsonLen : s2c.Command → Nat
  hash : String → List Nat

/-- `Client::send_command` (server/src/client.rs): serialize and encrypt;
refuse a payload beyond `u32::MAX` with `InvalidInput` ("Data too large");
otherwise write the 4-byte big-endian length and the payload and flush
under the stream's write lock. The write fails (modelled from the spec)
when the write direction was closed or the stream reset. -/
def send_command (ctx : SessionCtx) (st : StreamState) (command : s2c.Command) :
    StreamState × Except IoError Unit :=
  if ctx.jsonLen command > u32Max then
    (st, Except.error ⟨ErrorKind.InvalidInput, "Data too large"⟩)
  else if st.finished || st.isReset then
    (st, Except.error ⟨ErrorKind.Io, "stream write failed"⟩)
  else
    ({ st with sent := st.sent ++ [command] }, Except.ok ())

/-- `Client::error` (server/src/client.rs): best-effort send of
`s2c::Command::Error(err)` (the result is discarded), then `finish_write`
and `reset` on the stream. -/
def error (ctx : SessionCtx) (st : StreamState) (err : String) : StreamState :=
  let st1 := (send_command ctx st (s2c.Command.Error err)).1
  { st1 with finished := true, isReset := true }

/-- The backlog-replay closure of `Client::login` (server/src/client.rs
inside `for_messages_newer_than`): send each entry as
`s2c::Command::MessageRecv`; a send failure calls `error` with the error's
text and the iteration continues (the visitor cannot break). -/
def replayBacklog (ctx : SessionCtx) (st : StreamState)
    (entries : List (Nat × Message)) : StreamState :=
  entries.foldl (fun st p =>
    match send_command ctx st (s2c.Command.MessageRecv p.2) with
    | (st', Except.ok _) => st'
    | (st', Except.error e) => error ctx st' e.msg) st

/-- `Client::login` (server/src/client.rs): verify the password — on a
mismatch call `error("Invalid password")` WITHOUT returning (the source
has no early return here; execution falls through) — then send
`LoginSuccess` (on send failure, `error` and return without binding),
bind the session nickname, and replay the backlog only when
`get_last_sent_msg_id` yields a present cursor. `verify_password`'s
result is read as the boolean it carries (on this code path the user
exists, so user_list returns `Ok(bool)`; a `NotFound` error reads as a
failed verification). Returns the stream state and the session's
nickname cell. -/
def login (ctx : SessionCtx) (users : UserList) (messages : MessageList)
    (st : StreamState) (prevNick : Option String) (nickname password : String) :
    StreamState × Option String :=
  let verified := match verify_password ctx.hash users nickname password with
    | Except.ok b => b
    | Except.error _ => false
  let st := if verified then st else error ctx st "Invalid password"
  match send_command ctx st s2c.Command.LoginSuccess with
  | (st, Except.error e) => (error ctx st e.msg, prevNick)
  | (st, Except.ok _) =>
    let st := match get_last_sent_msg_id users nickname with
      | Except.ok (some last_msg_id) =>
          replayBacklog ctx st (for_messages_newer_than messages last_msg_id)
      | _ => st
    (st, some nickname)

/-- `Client::register` (server/src/client.rs): call `user_list::add_user`
(its result is discarded by the caller), bind the session nickname, and
log. Nothing is sent to the client on this path. -/
def register (ctx : SessionCtx) (users : UserList) (st : StreamState)
    (nickname password : String) : StreamState × Option String × UserList :=
  let users := match add_user ctx.hash users nickname password with
    | Except.ok users' => users'
    | Except.error _ => users
  (st, some nickname, users)

/-- `Client::on_login` (server/src/client.rs): nickname policy first
(`global_config().is_allowed_nickname`, which is
`NicknameFilteringConfig::is_allowed`), then dispatch on
`(is_registering, exists)`: already-exists error / register / login /
does-not-exist error. Returns stream state, session nickname and the user
directory. -/
def on_login (ctx : SessionCtx) (cfg : NicknameFilteringConfig) (users : UserList)
    (messages : MessageList) (st : StreamState) (prevNick : Option String)
    (request : LoginRequest) : StreamState × Option String × UserList :=
  let nickname := request.nickname
  let password := request.password
  if ¬ cfg.is_allowed nickname then
    (error ctx st ("`" ++ nickname ++ "` is not an allowed nickname due to regulations."),
     prevNick, users)
  else
    let is_present := existsUser users nickname
    match request.is_registering, is_present with
    | true, true =>
        (error ctx st ("`" ++ nickname ++ "` is already existing user account"),
         prevNick, users)
    | true, false => register ctx users st nickname password
    | false, true =>
        let (st', nick') := login ctx users messages st prevNick nickname password
        (st', nick', users)
    | false, false =>
        (error ctx st ("User with nickname `" ++ nickname ++ "` does not exist"),
         prevNick, users)

/-- `u32::from_be_bytes` on the four header bytes. -/
def u32_from_be_bytes (b0 b1 b2 b3 : Nat) : Nat :=
  ((b0 * 256 + b1) * 256 + b2) * 256 + b3

/-- `Client::recv_command` (server/src/client.rs). The stream's pending
bytes (everything deliverable before end of stream) are the list
`stream`; `stream.read` into the 4-byte header buffer returns
`min 4 stream.length` bytes. Source behaviour: 0 bytes read is an orderly
end (`Ok(None)`); fewer than 4 is `UnexpectedEof` ("End of stream was not
expected"); then `read_exact` of the announced payload length fails with
`UnexpectedEof` when the stream ends first ("failed to fill whole buffer"
is `read_exact`'s message); decryption is the identity; a UTF-8 decode
failure (`String::from_utf8`, the external decoder is the parameter
`utf8Decode`) or a JSON decode failure (`serde_json::from_str`, the
parameter `jsonParse`) is `InvalidData` ("Received invalid data..."). -/
def recv_command (utf8Decode : List Nat → Option String)
    (jsonParse : String → Option c2s.Command) :
    List Nat → Except IoError (Option c2s.Command)
  | [] => Except.ok none
  | b0 :: b1 :: b2 :: b3 :: rest =>
    let data_len := u32_from_be_bytes b0 b1 b2 b3
    if rest.length < data_len then
      Except.error ⟨ErrorKind.UnexpectedEof, "failed to fill whole buffer"⟩
    else
      let buffer := rest.take data_len
      let decrypted := buffer
      match utf8Decode decrypted with
      | none => Except.error ⟨ErrorKind.InvalidData, "Received invalid data: utf8 error"⟩
      | some string =>
        match jsonParse string with
        | none => Except.error ⟨ErrorKind.InvalidData, "Received invalid data: json error"⟩
        | some command => Except.ok (some command)
  | _ => Except.error ⟨ErrorKind.UnexpectedEof, "End of stream was not expected"⟩

/-! ## client_list.rs and message_queue.rs — registry and broadcast worker -/

/-- The registry entry `ClientInfo` as server/src/client_list.rs builds it
(`add_connection` inserts `nickname: None` before any login): socket
address key and optional bound nickname. The stream/thread handles are
not inspected by the verified code; the per-address send outcome is the
`sendOk` parameter of `handle_msg`. -/
structure ClientInfo where
  socket_addr : Nat
  nickname : Option String
deriving DecidableEq, Repr

/-- The fan-out body of `message_queue::handle_msg`
(server/src/message_queue.rs), run by `client_list::for_each`
(server/src/client_list.rs) over every entry of the client list in
iteration order — the source has no test on `nickname` before sending.
For each entry: send the accepted message on the entry's stream
(`client::send_info`; modelled from the spec as the session send of the
message, `sendOk addr` its outcome). On success,
`set_last_sent_msg_id(info.nickname.as_ref().unwrap(), msg_id).unwrap()` —
both `unwrap`s panic, aborting the worker, when the session has no
nickname or the directory has no such user. On failure,
`client::handle_err(addr, &err).unwrap()` (modelled from the spec: ask
that session to error) and the iteration continues. Returns the directory
and, in visiting order, the addresses sent to successfully, the
addresses asked to error, and whether a panic aborted the loop. -/
def broadcast_visit (sendOk : Nat → Bool) (msg_id : Nat) :
    List (Nat × ClientInfo) → UserList → UserList × List Nat × List Nat × Bool
  | [], users => (users, [], [], false)
  | (addr, info) :: rest, users =>
    if sendOk addr then
      match info.nickname with
      | none => (users, [addr], [], true)
      | some nick =>
        match set_last_sent_msg_id users nick msg_id with
        | Except.error _ => (users, [addr], [], true)
        | Except.ok users' =>
          let out := broadcast_visit sendOk msg_id rest users'
          (out.1, addr :: out.2.1, out.2.2.1, out.2.2.2)
    else
      let out := broadcast_visit sendOk msg_id rest users
      (out.1, out.2.1, addr :: out.2.2.1, out.2.2.2)

/-- Outcome of one `handle_msg` run: new log, new directory, addresses
delivered to and errored (in visiting order), and whether the worker
panicked. -/
structure BroadcastOutcome where
  message_list : MessageList
  users : UserList
  delivered : List Nat
  errored : List Nat
  panicked : Bool
deriving Repr

/-- `message_queue::handle_msg` (server/src/message_queue.rs): log the
message, `message_list::push` it (allocating its id), then fan out over
the whole client list with `broadcast_visit`. -/
def handle_msg (sendOk : Nat → Bool) (clients : List (Nat × ClientInfo))
    (users : UserList) (ml : MessageList) (message : Message) : BroadcastOutcome :=
  let pushed := ml.push message
  let out := broadcast_visit sendOk pushed.1 clients users
  ⟨pushed.2, out.1, out.2.1, out.2.2.1, out.2.2.2⟩

/-! ## serverconf/src/lib.rs and ip.rs — the configuration parser

Line splitting follows `REGEX_WHITESPACE = \s+` and Rust's `str::trim`,
both on whitespace characters (`Char.isWhitespace` stands for the `\s`
class). The external `std`/`regex` parsers the handlers call are the
`ExternParsers` parameter. -/

/-- The `\s` character class. -/
def isWs (c : Char) : Bool := c.isWhitespace

/-- Drop leading whitespace (`str::trim_start`, and the consumption of a
whitespace run by `\s+`). -/
def trimLeftChars : List Char → List Char
  | [] => []
  | c :: rest => if isWs c then trimLeftChars rest else c :: rest

/-- `str::trim`: drop trailing, then leading whitespace. -/
def trimChars (cs : List Char) : List Char :=
  trimLeftChars ((trimLeftChars cs.reverse).reverse)

/-- `str::trim` on a `String`. -/
def trimStr (s : String) : String := ⟨trimChars s.data⟩

/-- `REGEX_WHITESPACE.splitn(line, 2)`: the part before the first
whitespace run, and — when such a run exists — everything after it. -/
def splitOnceWs (cs : List Char) : List Char × Option (List Char) :=
  let token := cs.takeWhile (fun c => !(isWs c))
  let rest := cs.dropWhile (fun c => !(isWs c))
  match rest with
  | [] => (token, none)
  | _ => (token, some (trimLeftChars rest))

/-- `line.starts_with("#")`. -/
def startsWithHash : List Char → Bool
  | '#' :: _ => true
  | _ => false

/-- `std::net::IpAddr`: the two address families, each address an
abstract numeric handle (ranges compare handles within one family, as
`Ipv4Addr`/`Ipv6Addr` order bytewise). -/
inductive IpAddr where
  | V4 (addr : Nat)
  | V6 (addr : Nat)
deriving DecidableEq, Repr

/-- `HashSet::insert` on a set represented as a duplicate-free list. -/
def hsInsert {α : Type} [BEq α] (l : List α) (x : α) : List α :=
  if l.contains x then l else l ++ [x]

/-- The external parsers the configuration code calls: `str::parse` for
`IpAddr` / `SocketAddr` / `NonZeroU8` / `NonZeroU16` (socket addresses
are abstract numeric handles; the nonzero parses yield values in their
type's range) and `Regex::new`, a compiled regex being its match
predicate. All live outside this repository. -/
structure ExternParsers where
  parseIpAddr : String → Option IpAddr
  parseSocketAddr : String → Option Nat
  parseRegex : String → Option (String → Bool)
  parseNonZeroU8 : String → Option Nat
  parseNonZeroU16 : String → Option Nat

/-- `mdchat_serverconf::ip::IpFilteringConfig` (serverconf/src/ip.rs):
per-family allow sets, ban sets and inclusive ban ranges. -/
structure IpFilteringConfig where
  v4_allowed : List Nat
  v4_banned : List Nat
  v4_banned_ranges : List (Nat × Nat)
  v6_allowed : List Nat
  v6_banned : List Nat
  v6_banned_ranges : List (Nat × Nat)
deriving DecidableEq, Repr

namespace IpFilteringConfig

/-- `IpFilteringConfig::new` (serverconf/src/ip.rs). -/
def new : IpFilteringConfig := ⟨[], [], [], [], [], []⟩

/-- `IpFilteringConfig::allow` (serverconf/src/ip.rs). -/
def allow (cfg : IpFilteringConfig) (addr : IpAddr) : IpFilteringConfig :=
  match addr with
  | IpAddr.V4 a => { cfg with v4_allowed := hsInsert cfg.v4_allowed a }
  | IpAddr.V6 a => { cfg with v6_allowed := hsInsert cfg.v6_allowed a }

/-- `IpFilteringConfig::ban` (serverconf/src/ip.rs). -/
def ban (cfg : IpFilteringConfig) (addr : IpAddr) : IpFilteringConfig :=
  match addr with
  | IpAddr.V4 a => { cfg with v4_banned := hsInsert cfg.v4_banned a }
  | IpAddr.V6 a => { cfg with v6_banned := hsInsert cfg.v6_banned a }

/-- `IpFilteringConfig::ban_range` (serverconf/src/ip.rs): endpoints of
one family are normalized to `min..=max` and the range inserted; mixed
families are an error. (The source's `Result<bool, String>` insertion
flag is dropped by the caller, so the new state stands for `Ok`.) -/
def ban_range (cfg : IpFilteringConfig) (f t : IpAddr) :
    Except String IpFilteringConfig :=
  match f, t with
  | IpAddr.V4 f, IpAddr.V4 t =>
    Except.ok { cfg with v4_banned_ranges := hsInsert cfg.v4_banned_ranges (min f t, max f t) }
  | IpAddr.V6 f, IpAddr.V6 t =>
    Except.ok { cfg with v6_banned_ranges := hsInsert cfg.v6_banned_ranges (min f t, max f t) }
  | _, _ => Except.error "Bounds of IP address range must be the same version"

end IpFilteringConfig

namespace NicknameFilteringConfig

/-- `NicknameFilteringConfig::process_line` (serverconf/src/nickname.rs):
trim, skip an empty line, split the sub-command from its argument, and
dispatch on `allow` / `ban` / `max-length` / `min-length`; an unknown
sub-command is an error. Argument-less forms and failed parses are
errors with the source's messages (a parse error's display is
abbreviated here). -/
def process_line (ps : ExternParsers) (cfg : NicknameFilteringConfig)
    (line : String) : Except String NicknameFilteringConfig :=
  let line := trimStr line
  if line = "" then Except.ok cfg
  else
    let split := splitOnceWs line.data
    let command : String := ⟨split.1⟩
    let arg : Option String := split.2.map (fun cs => (⟨cs⟩ : String))
    if command = "allow" then
      match arg with
      | none => Except.error "An argument was expected after `nickname allow`"
      | some a => Except.ok (cfg.allow a)
    else if command = "ban" then
      match arg with
      | none => Except.error "An argument was expected after `nickname ban-pattern`"
      | some a =>
        match ps.parseRegex a with
        | none => Except.error ("Could not parse given regex after `nickname ban-pattern`: " ++ a)
        | some regex => Except.ok (cfg.ban regex)
    else if command = "max-length" then
      match arg with
      | none => Except.error "An argument was expected after `nickname max-length`"
      | some a =>
        match ps.parseNonZeroU8 a with
        | none => Except.error ("A number between 1 and 255 was expected after `nickname max-length`: " ++ a)
        | some n => cfg.set_max_len n
    else if command = "min-length" then
      match arg with
      | none => Except.error "An argument was expected after `nickname min-length`"
      | some a =>
        match ps.parseNonZeroU8 a with
        | none => Except.error ("A number between 1 and 255 was expected after `nickname min-length`: " ++ a)
        | some n => cfg.set_min_len n
    else Except.error ("`nickname " ++ command ++ "`: unknown sub-command")

end NicknameFilteringConfig

/-- `mdchat_serverconf::Config` (serverconf/src/lib.rs): IP filtering,
nickname filtering, listener socket addresses, and the message length
bounds (`NonZeroU16` as `Nat`). The logger is not modelled — nothing the
claims touch reads it. -/
structure Config where
  ip_filtering : IpFilteringConfig
  nickname_filtering : NicknameFilteringConfig
  listen_sock_addrs : List Nat
  message_max_len : Nat
  message_min_len : Nat

namespace Config

/-- `Config::new` (serverconf/src/lib.rs): empty filters, no listeners,
message length bounds `1 ..= u16::MAX`. -/
def new : Config :=
  ⟨IpFilteringConfig.new, NicknameFilteringConfig.new, [], 65535, 1⟩

/-- `Config::__process_ip_allow` (serverconf/src/lib.rs). -/
def __process_ip_allow (ps : ExternParsers) (cfg : Config) (arg : Option String) :
    Except String Config :=
  match arg with
  | none => Except.error "IP address was expected after `ip-allow`"
  | some a =>
    match ps.parseIpAddr a with
    | none => Except.error ("Invalid IP address after `ip-allow`: " ++ a)
    | some ip_addr => Except.ok { cfg with ip_filtering := cfg.ip_filtering.allow ip_addr }

/-- `Config::__process_ip_ban` (serverconf/src/lib.rs). -/
def __process_ip_ban (ps : ExternParsers) (cfg : Config) (arg : Option String) :
    Except String Config :=
  match arg with
  | none => Except.error "IP address was expected after `ip-ban`"
  | some a =>
    match ps.parseIpAddr a with
    | none => Except.error ("Invalid IP address after `ip-ban`: " ++ a)
    | some ip_addr => Except.ok { cfg with ip_filtering := cfg.ip_filtering.ban ip_addr }

/-- `Config::__process_ip_ban_range` (serverconf/src/lib.rs): the
argument (re-trimmed by the source) must split on whitespace into
exactly two parts — rendered here as: one whitespace run exists and the
remainder after it holds no further whitespace — both parts parseable
addresses; then `IpFilteringConfig::ban_range`. The generic message
keeps the source's wording (including its `ip-ban-ip` typo). -/
def __process_ip_ban_range (ps : ExternParsers) (cfg : Config) (arg : Option String) :
    Except String Config :=
  match arg with
  | none => Except.error "Two IP addresses separated by space were expected after `ip-ban-ip`"
  | some a =>
    match splitOnceWs (trimChars a.data) with
    | (s1, some s2) =>
      if s2.any isWs then
        Except.error "Two IP addresses separated by space were expected after `ip-ban-ip`"
      else
        match ps.parseIpAddr ⟨trimChars s1⟩ with
        | none => Except.error "`ip-ban-ip`: invalid IP address"
        | some f =>
          match ps.parseIpAddr ⟨trimChars s2⟩ with
          | none => Except.error "`ip-ban-ip`: invalid IP address"
          | some t =>
            match cfg.ip_filtering.ban_range f t with
            | Except.error e => Except.error ("`ip-ban-range`: " ++ e)
            | Except.ok ipf => Except.ok { cfg with ip_filtering := ipf }
    | (_, none) =>
      Except.error "Two IP addresses separated by space were expected after `ip-ban-ip`"

/-- `Config::__process_nickname_command` (serverconf/src/lib.rs). -/
def __process_nickname_command (ps : ExternParsers) (cfg : Config) (arg : Option String) :
    Except String Config :=
  match arg with
  | none => Except.error "Sub-command was expected after `nickname`"
  | some a =>
    match cfg.nickname_filtering.process_line ps a with
    | Except.error e => Except.error e
    | Except.ok nf => Except.ok { cfg with nickname_filtering := nf }

/-- `Config::__process_listen` (serverconf/src/lib.rs). -/
def __process_listen (ps : ExternParsers) (cfg : Config) (arg : Option String) :
    Except String Config :=
  match arg with
  | none => Except.error "Socket address was expected after `listen`"
  | some a =>
    match ps.parseSocketAddr a with
    | none => Except.error ("Invalid socket address after `listen`: " ++ a)
    | some sockaddr =>
        Except.ok { cfg with listen_sock_addrs := hsInsert cfg.listen_sock_addrs sockaddr }

/-- `Config::__process_msg_len_max` (serverconf/src/lib.rs). -/
def __process_msg_len_max (ps : ExternParsers) (cfg : Config) (arg : Option String) :
    Except String Config :=
  match arg with
  | none => Except.error "`nolimit` or a number was expected after `message_length_max`"
  | some a =>
    match ps.parseNonZeroU16 a with
    | none => Except.error "`nolimit` or a number was expected after `message_length_max`"
    | some num => Except.ok { cfg with message_max_len := num }

/-- The command dispatch of `Config::process_line` (serverconf/src/lib.rs):
exactly the source's `match option { ... }`. -/
def process_option (ps : ExternParsers) (cfg : Config) (option : String)
    (arg : Option String) : Except String Config :=
  if option = "ip-allow" then __process_ip_allow ps cfg arg
  else if option = "ip-ban" then __process_ip_ban ps cfg arg
  else if option = "ip-ban-range" then __process_ip_ban_range ps cfg arg
  else if option = "nickname" then __process_nickname_command ps cfg arg
  else if option = "listen" then __process_listen ps cfg arg
  else if option = "message-length-max" then __process_msg_len_max ps cfg arg
  else Except.error ("`" ++ option ++ "` is an invalid option")

/-- `Config::process_line` (serverconf/src/lib.rs): trim; accept empty
lines and `#` comments unchanged; split the command token from the
(re-trimmed) argument at the first whitespace run; dispatch on the
token. -/
def process_line (ps : ExternParsers) (cfg : Config) (line : String) :
    Except String Config :=
  let line := trimStr line
  if line = "" || startsWithHash line.data then Except.ok cfg
  else
    let split := splitOnceWs line.data
    let option : String := ⟨split.1⟩
    let arg : Option String := split.2.map (fun cs => (⟨trimChars cs⟩ : String))
    process_option ps cfg option arg

end Config

/-! ## Theorems: the user directory (claims about cursors and verification) -/

/-- C4 counterexample: the directory stores a cursor of `5` for `bob`, yet
`set_last_sent_msg_id` accepts the strictly smaller id `3` and overwrites
the cursor with it — the claimed rejection of non-increasing ids does not
exist and the cursor regresses. -/
theorem set_last_sent_msg_id_accepts_regression :
    set_last_sent_msg_id [("bob", ⟨"bob", [], some 5⟩)] "bob" 3
      = Except.ok [("bob", ⟨"bob", [], some 3⟩)] := rfl

/-- C4 (amended): for a nickname present in the directory,
`set_last_sent_msg_id(nick, id)` succeeds for every `id` and overwrites the
stored cursor with `Some(id)` unconditionally — no monotonicity check is
performed (only an unknown nickname is rejected, with `NotFound`). -/
theorem set_last_sent_msg_id_overwrites (users : UserList) (nickname : String)
    (id : Nat) (info : UserInfo) (h : mapLookup users nickname = some info) :
    set_last_sent_msg_id users nickname id
      = Except.ok (mapInsert users nickname { info with last_sent_msg_id := some id }) ∧
    ∀ users', set_last_sent_msg_id users nickname id = Except.ok users' →
      mapLookup users' nickname = some { info with last_sent_msg_id := some id } := by
  constructor
  · simp [set_last_sent_msg_id, h]
  · intro users' h'
    simp [set_last_sent_msg_id, h] at h'
    subst h'
    exact mapLookup_mapInsert_self users nickname _

/-- C4 witness: the general overwrite theorem applied at the concrete
regressing input of the counterexample. -/
theorem set_last_sent_msg_id_overwrites_witness :
    set_last_sent_msg_id [("bob", ⟨"bob", [], some 5⟩)] "bob" 3
      = Except.ok (mapInsert [("bob", ⟨"bob", [], some 5⟩)] "bob" ⟨"bob", [], some 3⟩) ∧
    ∀ users', set_last_sent_msg_id [("bob", ⟨"bob", [], some 5⟩)] "bob" 3 = Except.ok users' →
      mapLookup users' "bob" = some ⟨"bob", [], some 3⟩ :=
  set_last_sent_msg_id_overwrites [("bob", ⟨"bob", [], some 5⟩)] "bob" 3 ⟨"bob", [], some 5⟩ rfl

/-- C7 counterexample: verifying a password for the unknown nickname `dave`
yields a `NotFound` error, not the boolean `false` the claim asserts — the
unknown-user case is observably distinct from a hash mismatch (which is
`Ok(false)`). -/
theorem verify_password_unknown_user_is_error :
    verify_password (fun _ => []) [] "dave" "x"
      = Except.error ⟨ErrorKind.NotFound, "User with nickname dave not found"⟩ ∧
    verify_password (fun _ => []) [] "dave" "x" ≠ Except.ok false ∧
    verify_password (fun _ => [1]) [("dave", ⟨"dave", [2], none⟩)] "dave" "x"
      = Except.ok false := by
  refine ⟨rfl, ?_, rfl⟩
  intro h
  simp [verify_password, mapLookup] at h

/-- C7 (amended): `verify_password` returns `Ok(stored hash == hash of the
candidate)` for a known nickname — so `Ok(false)` exactly on a hash
mismatch — and a distinct `NotFound` error (never a boolean) for a
nickname absent from the directory; the two failure paths are
distinguishable to the caller. -/
theorem verify_password_distinguishes (hash : String → List Nat) (users : UserList)
    (nickname candidate : String) :
    (∀ info, mapLookup users nickname = some info →
      verify_password hash users nickname candidate
        = Except.ok (info.encrypted_password == hash candidate)) ∧
    (mapLookup users nickname = none →
      errKind (verify_password hash users nickname candidate) = some ErrorKind.NotFound ∧
      ∀ b : Bool, verify_password hash users nickname candidate ≠ Except.ok b) := by
  constructor
  · intro info h
    simp [verify_password, h]
  · intro h
    constructor
    · simp [verify_password, h, errKind]
    · intro b hb
      simp [verify_password, h] at hb

/-! ## Helper lemmas for the session send path -/

theorem send_command_ok (ctx : SessionCtx) (st : StreamState) (c : s2c.Command)
    (hlen : ctx.jsonLen c ≤ u32Max) (hfin : st.finished = false) (hres : st.isReset = false) :
    send_command ctx st c = ({ st with sent := st.sent ++ [c] }, Except.ok ()) := by
  have h1 : ¬ (ctx.jsonLen c > u32Max) := not_lt.mpr hlen
  simp [send_command, h1, hfin, hres]

theorem send_command_closed (ctx : SessionCtx) (st : StreamState) (c : s2c.Command)
    (hlen : ctx.jsonLen c ≤ u32Max) (h : st.finished = true ∨ st.isReset = true) :
    send_command ctx st c = (st, Except.error ⟨ErrorKind.Io, "stream write failed"⟩) := by
  have h1 : ¬ (ctx.jsonLen c > u32Max) := not_lt.mpr hlen
  have h2 : (st.finished || st.isReset) = true := by
    rcases h with h | h <;> simp [h]
  simp [send_command, h1, h2]

theorem error_on_open_stream (ctx : SessionCtx) (st : StreamState) (msg : String)
    (hlen : ctx.jsonLen (s2c.Command.Error msg) ≤ u32Max)
    (hfin : st.finished = false) (hres : st.isReset = false) :
    error ctx st msg = ⟨st.sent ++ [s2c.Command.Error msg], true, true⟩ := by
  simp [error, send_command_ok ctx st _ hlen hfin hres]

theorem error_on_closed_stream (ctx : SessionCtx) (st : StreamState) (msg : String)
    (hlen : ctx.jsonLen (s2c.Command.Error msg) ≤ u32Max)
    (h : st.finished = true ∨ st.isReset = true) :
    error ctx st msg = ⟨st.sent, true, true⟩ := by
  simp [error, send_command_closed ctx st _ hlen h]

theorem replayBacklog_on_open_stream (ctx : SessionCtx)
    (hlen : ∀ c, ctx.jsonLen c ≤ u32Max) (entries : List (Nat × Message)) :
    ∀ st : StreamState, st.finished = false → st.isReset = false →
    replayBacklog ctx st entries =
      ⟨st.sent ++ entries.map (fun p => s2c.Command.MessageRecv p.2), false, false⟩ := by
  induction entries with
  | nil =>
    intro st hfin hres
    obtain ⟨sent, fin, res⟩ := st
    simp only [StreamState.finished] at hfin
    simp only [StreamState.isReset] at hres
    subst hfin; subst hres
    simp [replayBacklog]
  | cons hd tl ih =>
    intro st hfin hres
    have hsend := send_command_ok ctx st (s2c.Command.MessageRecv hd.2) (hlen _) hfin hres
    simp only [replayBacklog, List.foldl_cons, hsend]
    have hstep := ih { st with sent := st.sent ++ [s2c.Command.MessageRecv hd.2] } hfin hres
    simp only [replayBacklog] at hstep
    rw [hstep]
    simp

/-! ## Fixtures for witnesses and counterexamples -/

/-- A concrete session context: every command serializes to 0 bytes and
the password hash is the byte-length singleton. -/
def ctx0 : SessionCtx := ⟨fun _ => 0, fun s => [s.length]⟩

/-- A freshly connected stream: nothing sent, open in both directions. -/
def st0 : StreamState := ⟨[], false, false⟩

/-- A directory holding `alice` with the hash of `"pw"` under `ctx0` and a
last-delivered cursor of `1`. -/
def usersAlice : UserList := [("alice", ⟨"alice", [2], some 1⟩)]

/-- A directory holding `carol` with the hash of `"pw"` under `ctx0` and
no last-delivered cursor. -/
def usersCarol : UserList := [("carol", ⟨"carol", [2], none⟩)]

/-- A log holding messages with ids `1` and `2`. -/
def msgs2 : MessageList := ⟨[(1, ⟨"alice", 0, "one"⟩), (2, ⟨"bob", 0, "two"⟩)], 2⟩

/-! ## Theorems: login arbitration and backlog replay -/

/-- C1: for a `Login{register=false}` request naming an existing nickname
(and passing the nickname policy), on a password mismatch the session
sends exactly one `Error("Invalid password")` frame, half-closes and
resets the stream, does not send `LoginSuccess`, does not bind the
session nickname, does not replay any backlog, and leaves the directory
untouched; on a password match it sends `LoginSuccess`, binds the
nickname, and replays the backlog (every logged message with id greater
than the stored cursor). The mismatch branch lacks a `return` in the
source, but the fall-through `LoginSuccess` send fails on the
just-reset stream, so the observable behaviour is as claimed. -/
theorem on_login_password_arbitration
    (ctx : SessionCtx) (cfg : NicknameFilteringConfig) (users : UserList)
    (messages : MessageList) (st : StreamState) (prevNick : Option String)
    (nickname password : String) (info : UserInfo)
    (hlen : ∀ c, ctx.jsonLen c ≤ u32Max)
    (hallow : cfg.is_allowed nickname = true)
    (hfound : mapLookup users nickname = some info)
    (hfin : st.finished = false) (hres : st.isReset = false) :
    (info.encrypted_password ≠ ctx.hash password →
      on_login ctx cfg users messages st prevNick ⟨false, nickname, password⟩
        = (⟨st.sent ++ [s2c.Command.Error "Invalid password"], true, true⟩, prevNick, users)) ∧
    (info.encrypted_password = ctx.hash password →
      ∀ k, info.last_sent_msg_id = some k →
      on_login ctx cfg users messages st prevNick ⟨false, nickname, password⟩
        = (⟨st.sent ++ s2c.Command.LoginSuccess ::
              (for_messages_newer_than messages k).map (fun p => s2c.Command.MessageRecv p.2),
            false, false⟩, some nickname, users)) := by
  have h1 : ∀ c, ¬ (ctx.jsonLen c > u32Max) := fun c => not_lt.mpr (hlen c)
  constructor
  · intro hne
    have hbeq : (info.encrypted_password == ctx.hash password) = false := by
      simp [hne]
    simp [on_login, login, error, send_command, existsUser, verify_password,
      get_last_sent_msg_id, hallow, hfound, hbeq, h1, hfin, hres]
  · intro heq k hk
    have hbeq : (info.encrypted_password == ctx.hash password) = true := by
      simp [heq]
    have hreplay := replayBacklog_on_open_stream ctx hlen
      (for_messages_newer_than messages k)
      (⟨st.sent ++ [s2c.Command.LoginSuccess], false, false⟩ : StreamState) rfl rfl
    simp [on_login, login, send_command, existsUser, verify_password,
      get_last_sent_msg_id, hallow, hfound, hbeq, hk, h1, hfin, hres, hreplay]

/-- C1 witness: the arbitration theorem applied to a concrete wrong-password
login for the existing user `alice` (stored hash `[2]`, candidate hash
`[3]`): exactly one `Error` frame, a reset stream, no nickname binding. -/
theorem on_login_password_arbitration_witness :
    on_login ctx0 NicknameFilteringConfig.new usersAlice msgs2 st0 none ⟨false, "alice", "bad"⟩
      = (⟨[s2c.Command.Error "Invalid password"], true, true⟩, none, usersAlice) :=
  (on_login_password_arbitration ctx0 NicknameFilteringConfig.new usersAlice msgs2 st0 none
    "alice" "bad" ⟨"alice", [2], some 1⟩ (fun _ => Nat.zero_le _) rfl rfl rfl rfl).1
    (by decide)

/-- C3 counterexample: the existing user `carol` has no stored cursor
(`last_sent_msg_id = None`); her successful login sends only
`LoginSuccess` and replays nothing, although the log contains a message —
contradicting the claim that with no stored cursor every logged message
is replayed. -/
theorem login_skips_replay_for_none_cursor :
    login ctx0 usersCarol ⟨[(1, ⟨"alice", 0, "one"⟩)], 1⟩ st0 none "carol" "pw"
      = (⟨[s2c.Command.LoginSuccess], false, false⟩, some "carol") ∧
    (1, (⟨"alice", 0, "one"⟩ : Message)) ∈
      (⟨[(1, ⟨"alice", 0, "one"⟩)], 1⟩ : MessageList).message_list := by
  constructor
  · rfl
  · simp

/-- C3 (amended): on a successful login of an existing user whose stored
cursor is `Some k`, the session sends `LoginSuccess` followed by exactly
the logged messages with id strictly greater than `k` as `MessageRecv`,
in log (strictly increasing id) order; when the stored cursor is `None`,
no backlog at all is replayed. -/
theorem login_backlog_replay
    (ctx : SessionCtx) (users : UserList) (messages : MessageList) (st : StreamState)
    (prevNick : Option String) (nickname password : String) (info : UserInfo)
    (hlen : ∀ c, ctx.jsonLen c ≤ u32Max)
    (hfound : mapLookup users nickname = some info)
    (hmatch : info.encrypted_password = ctx.hash password)
    (hfin : st.finished = false) (hres : st.isReset = false)
    (hsorted : List.Pairwise (· < ·) (messages.message_list.map Prod.fst)) :
    (∀ k, info.last_sent_msg_id = some k →
      login ctx users messages st prevNick nickname password
        = (⟨st.sent ++ s2c.Command.LoginSuccess ::
              (for_messages_newer_than messages k).map (fun p => s2c.Command.MessageRecv p.2),
            false, false⟩, some nickname)
      ∧ (∀ id m, (id, m) ∈ for_messages_newer_than messages k ↔
            ((id, m) ∈ messages.message_list ∧ k < id))
      ∧ List.Pairwise (· < ·) ((for_messages_newer_than messages k).map Prod.fst)) ∧
    (info.last_sent_msg_id = none →
      login ctx users messages st prevNick nickname password
        = (⟨st.sent ++ [s2c.Command.LoginSuccess], false, false⟩, some nickname)) := by
  have h1 : ∀ c, ¬ (ctx.jsonLen c > u32Max) := fun c => not_lt.mpr (hlen c)
  have hbeq : (info.encrypted_password == ctx.hash password) = true := by
    simp [hmatch]
  constructor
  · intro k hk
    refine ⟨?_, ?_, ?_⟩
    · have hreplay := replayBacklog_on_open_stream ctx hlen
        (for_messages_newer_than messages k)
        (⟨st.sent ++ [s2c.Command.LoginSuccess], false, false⟩ : StreamState) rfl rfl
      simp [login, send_command, verify_password, get_last_sent_msg_id,
        hfound, hbeq, hk, h1, hfin, hres, hreplay]
    · intro id m
      simp [for_messages_newer_than]
    · have hsub : List.Sublist ((for_messages_newer_than messages k).map Prod.fst)
          (messages.message_list.map Prod.fst) :=
        (List.filter_sublist _).map Prod.fst
      exact hsorted.sublist hsub
  · intro hk
    simp [login, send_command, verify_password, get_last_sent_msg_id,
      hfound, hbeq, hk, h1, hfin, hres]

/-- C3 witness: the replay theorem applied to `alice` with stored cursor
`1` over a log holding ids `1` and `2`: the session replays exactly the
id-`2` message after `LoginSuccess`. -/
theorem login_backlog_replay_witness :
    (login ctx0 usersAlice msgs2 st0 none "alice" "pw"
        = (⟨st0.sent ++ s2c.Command.LoginSuccess ::
              (for_messages_newer_than msgs2 1).map (fun p => s2c.Command.MessageRecv p.2),
            false, false⟩, some "alice")
      ∧ (∀ id m, (id, m) ∈ for_messages_newer_than msgs2 1 ↔
            ((id, m) ∈ msgs2.message_list ∧ 1 < id))
      ∧ List.Pairwise (· < ·) ((for_messages_newer_than msgs2 1).map Prod.fst)) :=
  (login_backlog_replay ctx0 usersAlice msgs2 st0 none "alice" "pw" ⟨"alice", [2], some 1⟩
    (fun _ => Nat.zero_le _) rfl rfl rfl rfl (by decide)).1 1 rfl

/-- C5 counterexample: a `Login{register=true}` for the fresh nickname
`alice` (policy-allowed) creates the user and binds the nickname, but the
stream state is untouched: no `LoginSuccess` — nor anything else — is
sent (and the s2c command enum of the common crate has no `LoginSuccess`
variant at all). -/
theorem register_sends_no_login_success :
    on_login ctx0 NicknameFilteringConfig.new [] MessageList.empty st0 none ⟨true, "alice", "pw"⟩
      = (st0, some "alice", [("alice", ⟨"alice", [2], none⟩)]) ∧
    (on_login ctx0 NicknameFilteringConfig.new [] MessageList.empty st0 none
      ⟨true, "alice", "pw"⟩).1.sent = [] := by
  exact ⟨rfl, rfl⟩

/-- C5 (amended): for a `Login{register=true}` request whose nickname
passes the nickname policy, is valid for the directory's defensive
re-check (nonempty printable ASCII), and is not yet registered, the
server creates the user (hashed password, empty cursor), binds the
session's nickname — and sends nothing to the client (no `LoginSuccess`
exists on this path). -/
theorem on_login_register_success
    (ctx : SessionCtx) (cfg : NicknameFilteringConfig) (users : UserList)
    (messages : MessageList) (st : StreamState) (prevNick : Option String)
    (nickname password : String)
    (hallow : cfg.is_allowed nickname = true)
    (hvalid : is_valid_nickname nickname = true)
    (hnew : existsUser users nickname = false) :
    on_login ctx cfg users messages st prevNick ⟨true, nickname, password⟩
      = (st, some nickname, mapInsert users nickname ⟨nickname, ctx.hash password, none⟩) ∧
    existsUser (mapInsert users nickname ⟨nickname, ctx.hash password, none⟩) nickname
      = true := by
  constructor
  · simp [on_login, hallow, hnew, register, add_user, hvalid]
  · simp [existsUser, mapLookup_mapInsert_self]

/-- C5 witness: the register theorem applied to a concrete fresh
registration of `bob`. -/
theorem on_login_register_success_witness :
    on_login ctx0 NicknameFilteringConfig.new [] MessageList.empty st0 none ⟨true, "bob", "pw"⟩
      = (st0, some "bob", mapInsert [] "bob" ⟨"bob", ctx0.hash "pw", none⟩) ∧
    existsUser (mapInsert [] "bob" ⟨"bob", ctx0.hash "pw", none⟩) "bob" = true :=
  on_login_register_success ctx0 NicknameFilteringConfig.new [] MessageList.empty st0 none
    "bob" "pw" rfl (by decide) rfl

/-! ## Theorems: broadcast fan-out and wire framing -/

/-- C2: evaluating `handle_msg` at its failing input. With one connected
but unauthenticated session (nickname `None`, inserted exactly so by
`add_connection`) whose send succeeds, the broadcast worker SENDS the
message to that session and then panics unwrapping its absent nickname
for the cursor update — the claimed nickname filter does not exist in the
fan-out. The second group shows the parts of the claim the code does
satisfy on nickname-bearing sessions: the cursor is updated exactly for
the successful recipient, and a failed send errors that session and the
iteration continues with the remaining recipients. -/
theorem handle_msg_sends_to_unauthenticated :
    ((handle_msg (fun _ => true) [(7, ⟨7, none⟩)] [] MessageList.empty
        ⟨"alice", 0, "hi"⟩).delivered = [7] ∧
      (handle_msg (fun _ => true) [(7, ⟨7, none⟩)] [] MessageList.empty
        ⟨"alice", 0, "hi"⟩).panicked = true) ∧
    ((handle_msg (fun addr => addr == 1)
        [(1, ⟨1, some "alice"⟩), (2, ⟨2, some "bob"⟩)]
        [("alice", ⟨"alice", [2], none⟩), ("bob", ⟨"bob", [2], none⟩)]
        MessageList.empty ⟨"alice", 0, "hi"⟩).delivered = [1] ∧
      (handle_msg (fun addr => addr == 1)
        [(1, ⟨1, some "alice"⟩), (2, ⟨2, some "bob"⟩)]
        [("alice", ⟨"alice", [2], none⟩), ("bob", ⟨"bob", [2], none⟩)]
        MessageList.empty ⟨"alice", 0, "hi"⟩).errored = [2] ∧
      (handle_msg (fun addr => addr == 1)
        [(1, ⟨1, some "alice"⟩), (2, ⟨2, some "bob"⟩)]
        [("alice", ⟨"alice", [2], none⟩), ("bob", ⟨"bob", [2], none⟩)]
        MessageList.empty ⟨"alice", 0, "hi"⟩).users
        = [("alice", ⟨"alice", [2], some 1⟩), ("bob", ⟨"bob", [2], none⟩)] ∧
      (handle_msg (fun addr => addr == 1)
        [(1, ⟨1, some "alice"⟩), (2, ⟨2, some "bob"⟩)]
        [("alice", ⟨"alice", [2], none⟩), ("bob", ⟨"bob", [2], none⟩)]
        MessageList.empty ⟨"alice", 0, "hi"⟩).panicked = false) := by
  exact ⟨⟨rfl, rfl⟩, rfl, rfl, rfl, rfl⟩

/-- C8: framing error taxonomy of `recv_command`. An empty stream (0
bytes at a frame boundary) is an orderly `Ok(None)`, not an error; a
nonempty stream shorter than the 4-byte header is `UnexpectedEof`; a
payload cut short of the announced length is `UnexpectedEof`; after the
identity decryption, a UTF-8 decoding failure is `InvalidData`, a JSON
decoding failure is `InvalidData`, and a fully decoded frame yields the
command. -/
theorem recv_command_framing (utf8Decode : List Nat → Option String)
    (jsonParse : String → Option c2s.Command) (stream : List Nat) :
    (stream = [] → recv_command utf8Decode jsonParse stream = Except.ok none) ∧
    (stream ≠ [] → stream.length < 4 →
      recv_command utf8Decode jsonParse stream
        = Except.error ⟨ErrorKind.UnexpectedEof, "End of stream was not expected"⟩) ∧
    (∀ b0 b1 b2 b3 rest, stream = b0 :: b1 :: b2 :: b3 :: rest →
      (rest.length < u32_from_be_bytes b0 b1 b2 b3 →
        recv_command utf8Decode jsonParse stream
          = Except.error ⟨ErrorKind.UnexpectedEof, "failed to fill whole buffer"⟩) ∧
      (u32_from_be_bytes b0 b1 b2 b3 ≤ rest.length →
        (utf8Decode (rest.take (u32_from_be_bytes b0 b1 b2 b3)) = none →
          recv_command utf8Decode jsonParse stream
            = Except.error ⟨ErrorKind.InvalidData, "Received invalid data: utf8 error"⟩) ∧
        (∀ s, utf8Decode (rest.take (u32_from_be_bytes b0 b1 b2 b3)) = some s →
          (jsonParse s = none →
            recv_command utf8Decode jsonParse stream
              = Except.error ⟨ErrorKind.InvalidData, "Received invalid data: json error"⟩) ∧
          (∀ c, jsonParse s = some c →
            recv_command utf8Decode jsonParse stream = Except.ok (some c))))) := by
  refine ⟨?_, ?_, ?_⟩
  · intro h; subst h; rfl
  · intro hne hlt
    match stream, hne, hlt with
    | [_], _, _ => rfl
    | [_, _], _, _ => rfl
    | [_, _, _], _, _ => rfl
    | _ :: _ :: _ :: _ :: _, _, hlt => simp at hlt; omega
  · intro b0 b1 b2 b3 rest hs
    subst hs
    constructor
    · intro hshort
      simp [recv_command, hshort]
    · intro hlong
      have hns : ¬ (rest.length < u32_from_be_bytes b0 b1 b2 b3) := not_lt.mpr hlong
      refine ⟨?_, ?_⟩
      · intro hu
        simp [recv_command, hns, hu]
      · intro s hu
        refine ⟨?_, ?_⟩
        · intro hj
          simp [recv_command, hns, hu, hj]
        · intro c hj
          simp [recv_command, hns, hu, hj]

/-! ## Theorems: nickname filtering -/

/-- The configuration `nickname min-length 3` produces (reachable from the
defaults by `set_min_len`, as the counterexample shows). -/
def cfgMinLen3 : NicknameFilteringConfig := ⟨3, 255, [], []⟩

/-- C6 counterexample: with `min_len = 3` (a state reached from the default
configuration by `set_min_len 3`), the one-character nickname `"x"` — not
allow-listed, matching no banned pattern — is ALLOWED by the source's
`is_allowed`, although the claim (rendered literally as `is_allowed_spec`)
requires it to be denied for violating the length bounds: `is_allowed`
never consults `min_len`/`max_len`. -/
theorem is_allowed_ignores_length_bounds :
    NicknameFilteringConfig.new.set_min_len 3 = Except.ok cfgMinLen3 ∧
    cfgMinLen3.is_allowed "x" = true ∧
    cfgMinLen3.is_allowed_spec "x" = false := by
  refine ⟨?_, rfl, ?_⟩
  · simp [NicknameFilteringConfig.new, NicknameFilteringConfig.set_min_len, cfgMinLen3]
  · have hx : ("x" : String).length = 1 := rfl
    simp [NicknameFilteringConfig.is_allowed_spec, cfgMinLen3, hx]

/-- C6 (amended): `nickname_allowed` (i.e. `Config::is_allowed_nickname`,
which forwards to `NicknameFilteringConfig::is_allowed`) returns `true`
iff the nickname is in the explicit allow-list or matches no banned
regular expression; the configured length bounds are not consulted. -/
theorem is_allowed_characterization (cfg : NicknameFilteringConfig) (nick : String) :
    cfg.is_allowed nick = true ↔
      (cfg.allowed.contains nick = true ∨ ∀ pattern ∈ cfg.banned, pattern nick = false) := by
  unfold NicknameFilteringConfig.is_allowed
  by_cases hmem : cfg.allowed.contains nick
  · simp [hmem]
  · simp only [hmem, if_false, Bool.false_eq_true, false_or]
    by_cases hban : cfg.banned.any (fun pattern => pattern nick)
    · simp only [hban, if_true]
      simp only [List.any_eq_true] at hban
      obtain ⟨p, hp, hpnick⟩ := hban
      constructor
      · intro h; exact absurd h (by simp)
      · intro h; exact absurd (h p hp) (by simp [hpnick])
    · simp only [hban, if_false]
      simp only [List.any_eq_true, not_exists, not_and] at hban
      constructor
      · intro _ p hp
        have := hban p hp
        simpa using this
      · intro _; rfl

/-! ## Theorems: the configuration parser -/

/-- A parser pack whose parsers all fail; the rejected command tokens of
the counterexample never reach a parser. -/
def ps0 : ExternParsers :=
  ⟨fun _ => none, fun _ => none, fun _ => none, fun _ => none, fun _ => none⟩

/-- A concrete parser pack accepting the specific arguments of the
recognition conjuncts. -/
def ps1 : ExternParsers where
  parseIpAddr := fun s =>
    if s = "1.2.3.4" then some (IpAddr.V4 16909060)
    else if s = "5.6.7.8" then some (IpAddr.V4 84281096)
    else none
  parseSocketAddr := fun s => if s = "0.0.0.0:4000" then some 4000 else none
  parseRegex := fun s => if s = "^root$" then some (fun n => n = "root") else none
  parseNonZeroU8 := fun s => if s = "3" then some 3 else none
  parseNonZeroU16 := fun s => if s = "100" then some 100 else none

/-- C9 counterexample: the spec table's two-word command forms are parse
errors — the parser's tokens are hyphenated (`ip-allow`, `ip-ban`,
`ip-ban-range`) and there are no `message ban` / `message min-length` /
`message max-length` commands at all (`message` is not a token; the only
message command is `message-length-max`). -/
theorem process_line_rejects_spec_table_forms :
    Config.process_line ps0 Config.new "ip allow 1.2.3.4"
      = Except.error "`ip` is an invalid option" ∧
    Config.process_line ps0 Config.new "ip ban 1.2.3.4"
      = Except.error "`ip` is an invalid option" ∧
    Config.process_line ps0 Config.new "ip ban-range 1.2.3.4 1.2.3.5"
      = Except.error "`ip` is an invalid option" ∧
    Config.process_line ps0 Config.new "message ban badword"
      = Except.error "`message` is an invalid option" ∧
    Config.process_line ps0 Config.new "message min-length 2"
      = Except.error "`message` is an invalid option" ∧
    Config.process_line ps0 Config.new "message max-length 10"
      = Except.error "`message` is an invalid option" := by
  exact ⟨rfl, rfl, rfl, rfl, rfl, rfl⟩

/-- C9 (amended): the parser recognizes exactly the tokens `ip-allow`,
`ip-ban`, `ip-ban-range`, `nickname` (with sub-commands `allow`, `ban`,
`min-length`, `max-length`), `listen` and `message-length-max` — any
other command token is reported as `` `<token>` is an invalid option``
(first conjunct); each recognized form, given a parseable argument, is
accepted with its documented effect (the closed conjuncts; the
`ip-ban-range` one also shows the reversed-endpoints normalization);
empty lines and `#` comments are skipped. -/
theorem process_line_recognized_commands :
    (∀ (ps : ExternParsers) (cfg : Config) (t : String) (a : Option String),
      t ∉ (["ip-allow", "ip-ban", "ip-ban-range", "nickname", "listen",
            "message-length-max"] : List String) →
      Config.process_option ps cfg t a
        = Except.error ("`" ++ t ++ "` is an invalid option")) ∧
    (Config.process_line ps1 Config.new "listen 0.0.0.0:4000").map
        (fun c => c.listen_sock_addrs) = Except.ok [4000] ∧
    (Config.process_line ps1 Config.new "ip-allow 1.2.3.4").map
        (fun c => c.ip_filtering.v4_allowed) = Except.ok [16909060] ∧
    (Config.process_line ps1 Config.new "ip-ban 1.2.3.4").map
        (fun c => c.ip_filtering.v4_banned) = Except.ok [16909060] ∧
    (Config.process_line ps1 Config.new "ip-ban-range 5.6.7.8 1.2.3.4").map
        (fun c => c.ip_filtering.v4_banned_ranges) = Except.ok [(16909060, 84281096)] ∧
    (Config.process_line ps1 Config.new "nickname allow root").map
        (fun c => c.nickname_filtering.allowed) = Except.ok ["root"] ∧
    (Config.process_line ps1 Config.new "nickname ban ^root$").map
        (fun c => c.nickname_filtering.banned.length) = Except.ok 1 ∧
    (Config.process_line ps1 Config.new "nickname min-length 3").map
        (fun c => c.nickname_filtering.min_len) = Except.ok 3 ∧
    (Config.process_line ps1 Config.new "nickname max-length 3").map
        (fun c => c.nickname_filtering.max_len) = Except.ok 3 ∧
    (Config.process_line ps1 Config.new "message-length-max 100").map
        (fun c => c.message_max_len) = Except.ok 100 ∧
    (Config.process_line ps1 Config.new "# ip-allow 1.2.3.4").map
        (fun c => c.listen_sock_addrs) = Except.ok [] ∧
    (Config.process_line ps1 Config.new "   ").map
        (fun c => c.listen_sock_addrs) = Except.ok [] := by
  refine ⟨?_, rfl, rfl, rfl, rfl, rfl, rfl, rfl, rfl, rfl, rfl, rfl⟩
  intro ps cfg t a h
  simp only [List.mem_cons, List.not_mem_nil, or_false, not_or] at h
  obtain ⟨h1, h2, h3, h4, h5, h6⟩ := h
  simp [Config.process_option, h1, h2, h3, h4, h5, h6]

/-- C10: the default configuration satisfies `min_len ≤ max_len`;
`set_min_len` fails exactly when the new minimum exceeds the current
maximum (producing no new state — in the source the error branch returns
before any field is written) and any successful `set_min_len` changes only
`min_len` and re-establishes `min_len ≤ max_len`; dually for
`set_max_len`. Hence the invariant holds after construction and is
preserved by every length-setting operation. -/
theorem nickname_length_bounds_invariant :
    (NicknameFilteringConfig.new.min_len ≤ NicknameFilteringConfig.new.max_len) ∧
    (∀ (cfg : NicknameFilteringConfig) (n : Nat),
      (∃ e, cfg.set_min_len n = Except.error e) ↔ cfg.max_len < n) ∧
    (∀ (cfg cfg' : NicknameFilteringConfig) (n : Nat),
      cfg.set_min_len n = Except.ok cfg' →
        cfg'.min_len = n ∧ cfg'.max_len = cfg.max_len ∧
        cfg'.allowed = cfg.allowed ∧ cfg'.banned = cfg.banned ∧
        cfg'.min_len ≤ cfg'.max_len) ∧
    (∀ (cfg : NicknameFilteringConfig) (n : Nat),
      (∃ e, cfg.set_max_len n = Except.error e) ↔ n < cfg.min_len) ∧
    (∀ (cfg cfg' : NicknameFilteringConfig) (n : Nat),
      cfg.set_max_len n = Except.ok cfg' →
        cfg'.max_len = n ∧ cfg'.min_len = cfg.min_len ∧
        cfg'.allowed = cfg.allowed ∧ cfg'.banned = cfg.banned ∧
        cfg'.min_len ≤ cfg'.max_len) := by
  refine ⟨by simp [NicknameFilteringConfig.new], ?_, ?_, ?_, ?_⟩
  · intro cfg n
    unfold NicknameFilteringConfig.set_min_len
    by_cases h : n > cfg.max_len <;> simp [h]
  · intro cfg cfg' n h
    unfold NicknameFilteringConfig.set_min_len at h
    by_cases hgt : n > cfg.max_len
    · simp [hgt] at h
    · simp [hgt] at h
      subst h
      simp
      omega
  · intro cfg n
    unfold NicknameFilteringConfig.set_max_len
    by_cases h : n < cfg.min_len <;> simp [h]
  · intro cfg cfg' n h
    unfold NicknameFilteringConfig.set_max_len at h
    by_cases hlt : n < cfg.min_len
    · simp [hlt] at h
    · simp [hlt] at h
      subst h
      simp
      omega

end MdChat
